/-
Verification of the NEMAEC-ERP schedule-comparison and budget-balancing engine.

Shallow embedding of:
  backend/app/domain/entities/cronograma_version.py
  backend/app/services/cronograma_comparacion_service.py
  backend/app/presentation/api/cronograma_versiones.py  (confirmar_version)
  backend/app/application/services/dashboard_service.py (_calcular_score_riesgo)

Python `Decimal` amounts are modelled as ℚ (both are exact under +, -, abs and
comparison, which is all the code uses).  Python dicts keyed by strings are
modelled as association lists with dict semantics: insertion order of first
occurrence is preserved and a later write to an existing key replaces the
value in place.  `datetime.now()` timestamps are modelled as an abstract ℕ
passed in by the caller.
-/
import Mathlib

set_option autoImplicit false

namespace Nemaec

/-- Enum `TipoModificacion` (cronograma_version.py). -/
inductive TipoModificacion where
  | deductivo_vinculante
  | reduccion_prestaciones
  | adicional_independiente
deriving DecidableEq, Repr

/-- Enum `EstadoModificacion` (cronograma_version.py). -/
inductive EstadoModificacion where
  | detectada
  | pendiente_confirmacion
  | pendiente_justificacion
  | justificada
  | pendiente_aprobacion
  | aprobada
  | rechazada
  | ejecutada
deriving DecidableEq, Repr

/-- Dataclass `ModificacionPartida` (cronograma_version.py).  Fields not read
by any embedded operation (document lists, UGPE audit stamps) are omitted. -/
structure ModificacionPartida where
  tipo : TipoModificacion := .adicional_independiente
  estado : EstadoModificacion := .detectada
  codigo_partida : String := ""
  descripcion_anterior : Option String := none
  descripcion_nueva : Option String := none
  monto_anterior : ℚ := 0
  monto_nuevo : ℚ := 0
  impacto_presupuestal : ℚ := 0
  justificacion_monitor : Option String := none
  partida_eliminada_codigo : Option String := none
  partida_eliminada_monto : ℚ := 0
  confirmada_por_monitor : Option ℕ := none
  monitor_responsable : Option String := none
deriving DecidableEq, Repr

/-- Method `ModificacionPartida.calcular_impacto_presupuestal` (cronograma_version.py
lines 65-75): deductivo → `monto_nuevo - partida_eliminada_monto`, adicional →
`monto_nuevo`, reducción → `-monto_anterior`. -/
def calcularImpactoPresupuestal (m : ModificacionPartida) : ℚ :=
  match m.tipo with
  | .deductivo_vinculante => m.monto_nuevo - m.partida_eliminada_monto
  | .adicional_independiente => m.monto_nuevo
  | .reduccion_prestaciones => -m.monto_anterior

/-- Tolerance `self.umbral_diferencia = Decimal('0.01')` (comparison service). -/
def umbral : ℚ := 1 / 100

/-- One parsed line-item record, as produced by `parsear_excel_a_partidas`
(the spreadsheet-parsing collaborator): the dict with keys `codigo_interno`,
`codigo_partida`, `descripcion`, `unidad`, `metrado`, `precio_unitario`,
`precio_total`, `fila_excel`. -/
structure Partida where
  codigo_interno : String := ""
  codigo_partida : String := ""
  descripcion : String := ""
  unidad : String := ("UND")
  metrado : ℚ := 0
  precio_unitario : ℚ := 0
  precio_total : ℚ := 0
  fila_excel : ℕ := 0
deriving DecidableEq, Repr

/-- Write `(k, v)` into an association list with Python-dict semantics:
replace in place if the key exists, else append. -/
def insertAssoc {α : Type} (m : List (String × α)) (k : String) (v : α) :
    List (String × α) :=
  match m with
  | [] => [(k, v)]
  | (k', v') :: t => if k' = k then (k, v) :: t else (k', v') :: insertAssoc t k v

/-- Dict comprehension `{p['codigo_partida']: p for p in partidas}`:
last write wins, first-occurrence insertion order. -/
def buildMapa (ps : List Partida) : List (String × Partida) :=
  ps.foldl (fun m p => insertAssoc m p.codigo_partida p) []

/-- Dict lookup on the association list. -/
def lookupAssoc {α : Type} (m : List (String × α)) (k : String) : Option α :=
  match m with
  | [] => none
  | (k', v) :: t => if k' = k then some v else lookupAssoc t k

/-- Method `_partida_fue_modificada`: compares `descripcion`, `unidad`, `metrado`,
`precio_unitario`, `precio_total` in that order; strings by inequality,
Decimal fields by `abs diff > umbral_diferencia`, returning at the first
difference. -/
def partidaFueModificada (original nueva : Partida) : Bool :=
  decide (original.descripcion ≠ nueva.descripcion) ||
  decide (original.unidad ≠ nueva.unidad) ||
  decide (|original.metrado - nueva.metrado| > umbral) ||
  decide (|original.precio_unitario - nueva.precio_unitario| > umbral) ||
  decide (|original.precio_total - nueva.precio_total| > umbral)

/-- Method `_obtener_campos_modificados`: names of the differing fields, in the
fixed comparison order. -/
def obtenerCamposModificados (original nueva : Partida) : List String :=
  (if original.descripcion ≠ nueva.descripcion then [("descripcion")] else []) ++
  (if original.unidad ≠ nueva.unidad then [("unidad")] else []) ++
  (if |original.metrado - nueva.metrado| > umbral then [("metrado")] else []) ++
  (if |original.precio_unitario - nueva.precio_unitario| > umbral then [("precio_unitario")] else []) ++
  (if |original.precio_total - nueva.precio_total| > umbral then [("precio_total")] else [])

/-- One entry of `partidas_modificadas`: the dict
`{'codigo_partida': ..., 'original': ..., 'nueva': ..., 'campos_modificados': ...}`. -/
structure ParModificada where
  codigo_partida : String
  original : Partida
  nueva : Partida
  campos_modificados : List String
deriving DecidableEq, Repr

/-- Balance alerts.  The Python code builds formatted strings; each distinct
message is modelled as a tagged value carrying the interpolated amount. -/
inductive Alerta where
  | sobrecosto (monto : ℚ)
  | aumentarReducciones
  | remanente (monto : ℚ)
  | agregarAdicionales
  | equilibrado
deriving DecidableEq, Repr

/-- Dataclass `ComparacionCronogramas`.  The Python dataclass has NO
`comisaria_id` field, and no code ever assigns that attribute; yet
`confirmar_version` reads `comparacion.comisaria_id`.  The attribute is
modelled as an `Option` that is `none` in every value the service builds, so
the read is the `AttributeError` branch of the API model. -/
structure ComparacionCronogramas where
  version_original_id : ℕ := 0
  version_nueva_id : ℕ := 0
  comisaria_id : Option ℕ := none
  partidas_eliminadas : List Partida := []
  partidas_nuevas : List Partida := []
  partidas_modificadas : List ParModificada := []
  impacto_reducciones : ℚ := 0
  impacto_adicionales : ℚ := 0
  balance_preliminar : ℚ := 0
  modificaciones_sugeridas : List ModificacionPartida := []
deriving DecidableEq, Repr

/-- Method `ComparacionCronogramas.esta_equilibrada_preliminarmente`. -/
def estaEquilibradaPreliminarmente (c : ComparacionCronogramas) : Bool :=
  decide (|c.balance_preliminar| < umbral)

/-- Method `ComparacionCronogramas.get_alertas_balance` (strict sign test, no
tolerance, per the source). -/
def getAlertasBalance (c : ComparacionCronogramas) : List Alerta :=
  if c.balance_preliminar > 0 then
    [Alerta.sobrecosto c.balance_preliminar, Alerta.aumentarReducciones]
  else if c.balance_preliminar < 0 then
    [Alerta.remanente |c.balance_preliminar|, Alerta.agregarAdicionales]
  else
    [Alerta.equilibrado]

/-- The `ModificacionPartida` built for one eliminated line item
(`_generar_modificaciones_sugeridas`, step 1). -/
def mkReduccion (p : Partida) : ModificacionPartida :=
  { tipo := .reduccion_prestaciones
    estado := .detectada
    codigo_partida := p.codigo_partida
    descripcion_anterior := some p.descripcion
    monto_anterior := p.precio_total
    monto_nuevo := 0
    impacto_presupuestal := -p.precio_total }

/-- The `ModificacionPartida` built for one new line item (step 2). -/
def mkAdicional (p : Partida) : ModificacionPartida :=
  { tipo := .adicional_independiente
    estado := .detectada
    codigo_partida := p.codigo_partida
    descripcion_nueva := some p.descripcion
    monto_anterior := 0
    monto_nuevo := p.precio_total
    impacto_presupuestal := p.precio_total }

/-- The `ModificacionPartida` built for one changed line item (step 3);
note: no linkage is set (`partida_eliminada_codigo`/`_monto` keep defaults). -/
def mkDeductivo (m : ParModificada) : ModificacionPartida :=
  { tipo := .deductivo_vinculante
    estado := .detectada
    codigo_partida := m.codigo_partida
    descripcion_anterior := some m.original.descripcion
    descripcion_nueva := some m.nueva.descripcion
    monto_anterior := m.original.precio_total
    monto_nuevo := m.nueva.precio_total
    impacto_presupuestal := m.nueva.precio_total - m.original.precio_total }

/-- Method `_generar_modificaciones_sugeridas`: the accumulator list with the three
append loops, in source order (reductions, additions, deductives). -/
def generarModificacionesSugeridas
    (partidas_eliminadas : List Partida)
    (partidas_nuevas : List Partida)
    (partidas_modificadas : List ParModificada) : List ModificacionPartida :=
  let acc1 := partidas_eliminadas.foldl (fun acc p => acc ++ [mkReduccion p]) []
  let acc2 := partidas_nuevas.foldl (fun acc p => acc ++ [mkAdicional p]) acc1
  partidas_modificadas.foldl (fun acc m => acc ++ [mkDeductivo m]) acc2

/-- Method `comparar_cronogramas` (comparison service lines 73-159). -/
def compararCronogramas
    (partidas_originales partidas_nuevas : List Partida) :
    ComparacionCronogramas :=
  let mapaOriginales := buildMapa partidas_originales
  let mapaNuevas := buildMapa partidas_nuevas
  let partidasEliminadas :=
    (mapaOriginales.filter (fun kv => (lookupAssoc mapaNuevas kv.1).isNone)).map (·.2)
  let partidasNuevasLista :=
    (mapaNuevas.filter (fun kv => (lookupAssoc mapaOriginales kv.1).isNone)).map (·.2)
  let partidasModificadas :=
    mapaNuevas.filterMap (fun kv =>
      match lookupAssoc mapaOriginales kv.1 with
      | some partidaOriginal =>
          if partidaFueModificada partidaOriginal kv.2 then
            some ⟨kv.1, partidaOriginal, kv.2,
                  obtenerCamposModificados partidaOriginal kv.2⟩
          else none
      | none => none)
  let impactoReducciones :=
    partidasEliminadas.foldl (fun acc p => acc + p.precio_total) 0
  let impactoAdicionales :=
    partidasNuevasLista.foldl (fun acc p => acc + p.precio_total) 0
  let impactoModificadas :=
    partidasModificadas.foldl
      (fun acc m => acc + (m.nueva.precio_total - m.original.precio_total)) 0
  let balancePreliminar := impactoAdicionales - impactoReducciones + impactoModificadas
  { version_original_id := 0
    version_nueva_id := 0
    comisaria_id := none
    partidas_eliminadas := partidasEliminadas
    partidas_nuevas := partidasNuevasLista
    partidas_modificadas := partidasModificadas
    impacto_reducciones := impactoReducciones
    impacto_adicionales := impactoAdicionales
    balance_preliminar := balancePreliminar
    modificaciones_sugeridas :=
      generarModificacionesSugeridas partidasEliminadas partidasNuevasLista
        partidasModificadas }

/-- Result dict of `validar_equilibrio_presupuestal`. -/
structure ResultadoValidacion where
  esta_equilibrado : Bool
  total_reducciones : ℚ
  total_adicionales : ℚ
  balance : ℚ
  alertas : List Alerta
deriving DecidableEq, Repr

/-- Method `validar_equilibrio_presupuestal` (comparison service lines 257-298):
accumulates `total_reducciones`/`total_adicionales` over
`calcular_impacto_presupuestal`, balance = adicionales − reducciones,
equilibrium within `umbral_diferencia`, alerts on overrun/surplus. -/
def validarEquilibrioPresupuestal (modificaciones : List ModificacionPartida) :
    ResultadoValidacion :=
  let totales := modificaciones.foldl
    (fun (acc : ℚ × ℚ) m =>
      let impacto := calcularImpactoPresupuestal m
      if impacto < 0 then (acc.1 + |impacto|, acc.2) else (acc.1, acc.2 + impacto))
    (0, 0)
  let balance := totales.2 - totales.1
  let estaEquilibrado := decide (|balance| < umbral)
  let alertas :=
    if balance > umbral then
      [Alerta.sobrecosto balance, Alerta.aumentarReducciones]
    else if balance < -umbral then
      [Alerta.remanente |balance|, Alerta.agregarAdicionales]
    else
      [Alerta.equilibrado]
  ⟨estaEquilibrado, totales.1, totales.2, balance, alertas⟩

/-- Dataclass `CronogramaVersion` (the fields the embedded operations read). -/
structure CronogramaVersion where
  comisaria_id : ℕ := 0
  numero_version : ℕ := 1
  modificaciones : List ModificacionPartida := []
  total_reducciones : ℚ := 0
  total_adicionales : ℚ := 0
  balance_presupuestal : ℚ := 0
  esta_equilibrada : Bool := false
deriving DecidableEq, Repr

/-- Method `CronogramaVersion.calcular_balance_presupuestal` (mutates `self`;
modelled as returning the updated record). -/
def calcularBalancePresupuestal (v : CronogramaVersion) : CronogramaVersion :=
  let totales := v.modificaciones.foldl
    (fun (acc : ℚ × ℚ) m =>
      let impacto := calcularImpactoPresupuestal m
      if impacto < 0 then (acc.1 + |impacto|, acc.2) else (acc.1, acc.2 + impacto))
    (0, 0)
  let balance := totales.2 - totales.1
  { v with
    total_reducciones := totales.1
    total_adicionales := totales.2
    balance_presupuestal := balance
    esta_equilibrada := decide (|balance| < 1 / 100) }

/-- Method `CronogramaVersion.puede_ser_aprobada` (cronograma_version.py 140-151):
the stored `esta_equilibrada` flag must hold and every modification must be
`JUSTIFICADA` or `APROBADA`. -/
def puedeSerAprobada (v : CronogramaVersion) : Bool :=
  v.esta_equilibrada &&
    v.modificaciones.all
      (fun m => decide (m.estado = .justificada) || decide (m.estado = .aprobada))

/-! ## The `confirmar_version` endpoint (cronograma_versiones.py 216-329)

State = the module-level session dict `comparaciones_activas` plus the
JSON-file version store.  The endpoint is modelled as a pure transition on
that state; `datetime.now()` is the caller-supplied `now`. -/

/-- Pydantic model `ConfirmarModificacionRequest`. -/
structure ConfirmarModificacionRequest where
  codigo_partida : String
  tipo : TipoModificacion
  justificacion : String
  confirmar : Bool
deriving DecidableEq, Repr

/-- Pydantic model `ConfirmarVersionRequest`. -/
structure ConfirmarVersionRequest where
  comparacion_id : String
  modificaciones_confirmadas : List ConfirmarModificacionRequest
  monitor_responsable : String
deriving DecidableEq, Repr

/-- One record of the JSON version store (`nueva_version`; the fields the
endpoint computes). -/
structure VersionRecord where
  id : ℕ
  comisaria_id : ℕ
  numero_version : ℕ
  total_presupuesto : ℚ
  modificaciones : List ModificacionPartida
  monitor_responsable : String
deriving DecidableEq, Repr

/-- The server state touched by `confirmar_version`. -/
structure ApiState where
  comparaciones_activas : List (String × ComparacionCronogramas)
  versiones : List VersionRecord
deriving DecidableEq, Repr

/-- The error outcomes of `confirmar_version`: 404 session not found,
400 unbalanced budget (with the validator's alert list in the detail), and
the 500 produced when the success path reads the nonexistent
`comparacion.comisaria_id` attribute (`AttributeError` caught by the generic
handler). -/
inductive ApiError where
  | notFound
  | unbalanced (alertas : List Alerta)
  | attrMissing
deriving DecidableEq, Repr

/-- The success payload of `confirmar_version`. -/
structure ConfirmarVersionOk where
  version_id : ℕ
  numero_version : ℕ
  total_modificaciones : ℕ
deriving DecidableEq, Repr

/-- Replace the value stored under `k` (dict write to an existing key). -/
def updateAssoc {α : Type} (m : List (String × α)) (k : String) (v : α) :
    List (String × α) :=
  m.map (fun kv => if kv.1 = k then (kv.1, v) else kv)

/-- Deletion `del comparaciones_activas[k]`. -/
def removeAssoc {α : Type} (m : List (String × α)) (k : String) :
    List (String × α) :=
  m.filter (fun kv => kv.1 ≠ k)

/-- The in-place mutation done on a matched suggested modification:
`estado = JUSTIFICADA`, justification, monitor and timestamp recorded. -/
def aplicarConfirmacion (now : ℕ) (monitor justificacion : String)
    (m : ModificacionPartida) : ModificacionPartida :=
  { m with
    estado := .justificada
    justificacion_monitor := some justificacion
    monitor_responsable := some monitor
    confirmada_por_monitor := some now }

/-- Search `next((m for m in lista if pred m), None)` followed by in-place mutation:
returns the list with the first match replaced, and the mutated element. -/
def updateFirst (pred : ModificacionPartida → Bool)
    (f : ModificacionPartida → ModificacionPartida) :
    List ModificacionPartida → List ModificacionPartida × Option ModificacionPartida
  | [] => ([], none)
  | x :: t =>
    if pred x then (f x :: t, some (f x))
    else
      let r := updateFirst pred f t
      (x :: r.1, r.2)

/-- The confirmation loop of `confirmar_version` (lines 238-254): for each
request with `confirmar = True`, the first suggested modification matching
`codigo_partida` and `tipo` is mutated in place (inside the session object)
and collected into `modificaciones_confirmadas`. -/
def procesarConfirmaciones (now : ℕ) (monitor : String)
    (requests : List ConfirmarModificacionRequest)
    (sugeridas : List ModificacionPartida) :
    List ModificacionPartida × List ModificacionPartida :=
  requests.foldl
    (fun acc r =>
      if r.confirmar then
        let u := updateFirst
          (fun m => decide (m.codigo_partida = r.codigo_partida) && decide (m.tipo = r.tipo))
          (aplicarConfirmacion now monitor r.justificacion) acc.1
        match u.2 with
        | some mutada => (u.1, acc.2 ++ [mutada])
        | none => (u.1, acc.2)
      else acc)
    (sugeridas, [])

/-- Endpoint `confirmar_version` as a state transition.  Faithful to the source order:
(1) 404 if the session id is unknown; (2) the confirmation loop mutates the
session's suggested modifications BEFORE any validation; (3) the balance
validator runs on the confirmed list and an unbalanced result raises the 400
with the alert list, leaving the (already mutated) session in place; (4) the
success path immediately reads `comparacion.comisaria_id`, an attribute the
dataclass does not have — for the `none` model value this is the
`AttributeError`/500 outcome, still leaving the mutated session in place;
only with an (unreachable) attribute value does it persist a version, drop
the session and return success. -/
def confirmarVersion (st : ApiState) (req : ConfirmarVersionRequest) (now : ℕ) :
    Except ApiError ConfirmarVersionOk × ApiState :=
  match lookupAssoc st.comparaciones_activas req.comparacion_id with
  | none => (.error .notFound, st)
  | some comparacion =>
    let proc := procesarConfirmaciones now req.monitor_responsable
      req.modificaciones_confirmadas comparacion.modificaciones_sugeridas
    let comparacionMutada := { comparacion with modificaciones_sugeridas := proc.1 }
    let stMutado : ApiState :=
      { st with comparaciones_activas :=
          updateAssoc st.comparaciones_activas req.comparacion_id comparacionMutada }
    let validacion := validarEquilibrioPresupuestal proc.2
    if ¬ validacion.esta_equilibrado then
      (.error (.unbalanced validacion.alertas), stMutado)
    else
      match comparacionMutada.comisaria_id with
      | none => (.error .attrMissing, stMutado)
      | some cid =>
        let nextVersionId := (stMutado.versiones.foldl (fun a v => max a v.id) 0) + 1
        let versionesComisaria := stMutado.versiones.filter (fun v => v.comisaria_id = cid)
        let numeroVersion :=
          (versionesComisaria.foldl (fun a v => max a v.numero_version) 0) + 1
        let totalPresupuesto := proc.2.foldl
          (fun a m => if m.tipo = .adicional_independiente then a + m.monto_nuevo else a) 0
        let nuevaVersion : VersionRecord :=
          ⟨nextVersionId, cid, numeroVersion, totalPresupuesto, proc.2,
           req.monitor_responsable⟩
        let stFinal : ApiState :=
          { comparaciones_activas :=
              removeAssoc stMutado.comparaciones_activas req.comparacion_id
            versiones := stMutado.versiones ++ [nuevaVersion] }
        (.ok ⟨nextVersionId, numeroVersion, proc.2.length⟩, stFinal)

/-! ## Risk score (dashboard_service.py `_calcular_score_riesgo`) -/

/-- The report-staleness information in a per-station statistics record:
no `ultimo_reporte` key, an unparseable date, or a parsed date
`dias` whole days in the past (`(datetime.now() - fecha).days`, which is
negative for a future-dated report). -/
inductive UltimoReporte where
  | ninguno
  | fechaInvalida
  | hace (dias : ℤ)
deriving DecidableEq, Repr

/-- A per-station statistics record (`datos_comisaria`) as read by
`_calcular_score_riesgo`. -/
structure DatosComisaria where
  diferencia_promedio : ℚ := 0
  total_partidas : ℕ := 1
  partidas_criticas : ℕ := 0
  ultimo_reporte : UltimoReporte := .ninguno
deriving DecidableEq, Repr

/-- Method `_calcular_score_riesgo` (dashboard_service.py 195-231).  Returns `none`
exactly where the Python raises `ZeroDivisionError`: the critical-item factor
divides by `total_partidas`. -/
def calcularScoreRiesgo (datos : DatosComisaria) : Option ℚ :=
  if datos.total_partidas = 0 then none
  else
    let factor1 := min (|datos.diferencia_promedio| * (8 / 10)) 10 * (4 / 10)
    let porcentajeCriticas :=
      ((datos.partidas_criticas : ℚ) / (datos.total_partidas : ℚ)) * 100
    let factor2 := min (porcentajeCriticas * (5 / 10)) 10 * (3 / 10)
    let factor3 :=
      match datos.ultimo_reporte with
      | .ninguno => 0
      | .fechaInvalida => 5 * (2 / 10)
      | .hace dias => min ((dias : ℚ) * (5 / 10)) 10 * (2 / 10)
    let factor4 := 0 * (1 / 10)
    some (min (factor1 + factor2 + factor3 + factor4) 10)

/-! ## Concrete instances used by the concrete-scenario and API theorems -/

/-- Baseline item 01.01 of spec §8.6, extended price 1000. -/
def part0101Base : Partida :=
  { codigo_interno := ("01"), codigo_partida := ("01.01"),
    descripcion := ("Muro de contencion"), unidad := ("UND"), metrado := 1,
    precio_unitario := 1000, precio_total := 1000, fila_excel := 2 }

/-- Baseline item 01.02 of spec §8.6, extended price 500. -/
def part0102Base : Partida :=
  { codigo_interno := ("02"), codigo_partida := ("01.02"),
    descripcion := ("Contrapiso"), unidad := ("UND"), metrado := 1,
    precio_unitario := 500, precio_total := 500, fila_excel := 3 }

/-- Candidate item 01.01 of spec §8.6, extended price changed to 1200. -/
def part0101Cand : Partida :=
  { codigo_interno := ("01"), codigo_partida := ("01.01"),
    descripcion := ("Muro de contencion"), unidad := ("UND"), metrado := 1,
    precio_unitario := 1200, precio_total := 1200, fila_excel := 2 }

/-- Candidate item 01.03 of spec §8.6, extended price 300, new. -/
def part0103Cand : Partida :=
  { codigo_interno := ("03"), codigo_partida := ("01.03"),
    descripcion := ("Cobertura ligera"), unidad := ("UND"), metrado := 1,
    precio_unitario := 300, precio_total := 300, fila_excel := 3 }

/-- The `partidas_modificadas` entry produced for 01.01. -/
def parModificada0101 : ParModificada :=
  ⟨("01.01"), part0101Base, part0101Cand, [("precio_unitario"), ("precio_total")]⟩

/-- A suggested reduction of 500, as the classifier creates it (DETECTADA). -/
def modReduccion500 : ModificacionPartida :=
  { tipo := .reduccion_prestaciones, estado := .detectada,
    codigo_partida := ("02.01"), descripcion_anterior := some ("Veredas"),
    monto_anterior := 500, monto_nuevo := 0, impacto_presupuestal := -500 }

/-- A comparison session holding only the 500 reduction. -/
def compSesion : ComparacionCronogramas :=
  { modificaciones_sugeridas := [modReduccion500] }

/-- Server state with one active session. -/
def estadoC3 : ApiState := ⟨[(("sesion-1"), compSesion)], []⟩

/-- A confirmation request that confirms only the 500 reduction (unbalanced). -/
def reqC3 : ConfirmarVersionRequest :=
  ⟨("sesion-1"),
   [⟨("02.01"), .reduccion_prestaciones, ("vicios ocultos"), true⟩],
   ("Monitor Rojas")⟩

/-- The 500 reduction after the in-place confirmation mutation at time 7. -/
def modReduccion500J : ModificacionPartida :=
  aplicarConfirmacion 7 ("Monitor Rojas") ("vicios ocultos") modReduccion500

/-- A modification already in the terminal RECHAZADA state. -/
def modRechazada : ModificacionPartida :=
  { tipo := .reduccion_prestaciones, estado := .rechazada,
    codigo_partida := ("03.01"), descripcion_anterior := some ("Pintura"),
    monto_anterior := 250, monto_nuevo := 0, impacto_presupuestal := -250 }

/-- A session whose only suggested modification is already RECHAZADA. -/
def compSesionRech : ComparacionCronogramas :=
  { modificaciones_sugeridas := [modRechazada] }

/-- Server state with the rejected-modification session. -/
def estadoC6 : ApiState := ⟨[(("sesion-2"), compSesionRech)], []⟩

/-- A request re-confirming the rejected modification. -/
def reqC6 : ConfirmarVersionRequest :=
  ⟨("sesion-2"),
   [⟨("03.01"), .reduccion_prestaciones, ("reintento"), true⟩],
   ("Monitor Vega")⟩

/-- The rejected modification after the in-place confirmation mutation. -/
def modRechazadaJ : ModificacionPartida :=
  aplicarConfirmacion 9 ("Monitor Vega") ("reintento") modRechazada

/-- A zero-amount modification already in the terminal APROBADA state. -/
def modAprobadaCero : ModificacionPartida :=
  { tipo := .reduccion_prestaciones, estado := .aprobada,
    codigo_partida := ("04.01"), monto_anterior := 0, monto_nuevo := 0,
    impacto_presupuestal := 0 }

/-- A session whose only suggested modification is already APROBADA. -/
def compSesionApr : ComparacionCronogramas :=
  { modificaciones_sugeridas := [modAprobadaCero] }

/-- Server state with the approved-modification session. -/
def estadoC6w : ApiState := ⟨[(("sesion-3"), compSesionApr)], []⟩

/-- A request re-confirming the approved modification. -/
def reqC6w : ConfirmarVersionRequest :=
  ⟨("sesion-3"),
   [⟨("04.01"), .reduccion_prestaciones, ("reconfirmada"), true⟩],
   ("Monitor Soto")⟩

/-- A modification still in DETECTADA state, for the approval-gating witness. -/
def modDetectada500 : ModificacionPartida :=
  { tipo := .adicional_independiente, estado := .detectada,
    codigo_partida := ("05.01"), monto_anterior := 0, monto_nuevo := 500,
    impacto_presupuestal := 500 }

/-- A balanced version that still contains a DETECTADA modification. -/
def versionConDetectada : CronogramaVersion :=
  { modificaciones := [modDetectada500], esta_equilibrada := true }

/-- A statistics record with zero line items (the division-failure input). -/
def datosSinPartidas : DatosComisaria :=
  { diferencia_promedio := 0, total_partidas := 0, partidas_criticas := 0,
    ultimo_reporte := .ninguno }

/-- A typical statistics record with at least one line item. -/
def datosEstacionTipica : DatosComisaria :=
  { diferencia_promedio := 3, total_partidas := 4, partidas_criticas := 1,
    ultimo_reporte := .ninguno }

/-! ## Helper lemmas -/

/-- Folding `acc ++ [f x]` over a list appends the mapped list. -/
lemma foldl_append_singleton {α β : Type} (f : α → β) :
    ∀ (l : List α) (acc : List β),
      l.foldl (fun a x => a ++ [f x]) acc = acc ++ l.map f
  | [], acc => by simp
  | x :: t, acc => by
    simp [List.foldl_cons, foldl_append_singleton f t]

/-- The suggested-modification generator is the concatenation of the three
per-kind maps, in emission order. -/
lemma generar_eq_maps (e n : List Partida) (m : List ParModificada) :
    generarModificacionesSugeridas e n m =
      e.map mkReduccion ++ n.map mkAdicional ++ m.map mkDeductivo := by
  simp [generarModificacionesSugeridas, foldl_append_singleton]

/-- The reduction/addition accumulator of the balance validator, run from an
arbitrary start, adds the two filtered impact sums. -/
lemma foldl_totales (mods : List ModificacionPartida) :
    ∀ (acc : ℚ × ℚ),
      mods.foldl
        (fun (acc : ℚ × ℚ) m =>
          let impacto := calcularImpactoPresupuestal m
          if impacto < 0 then (acc.1 + |impacto|, acc.2) else (acc.1, acc.2 + impacto))
        acc =
      (acc.1 + ((mods.filter (fun m => decide (calcularImpactoPresupuestal m < 0))).map
              (fun m => |calcularImpactoPresupuestal m|)).sum,
       acc.2 + ((mods.filter (fun m => decide (0 ≤ calcularImpactoPresupuestal m))).map
              (fun m => calcularImpactoPresupuestal m)).sum) := by
  induction mods with
  | nil => intro acc; simp
  | cons x t ih =>
    intro acc
    by_cases hx : calcularImpactoPresupuestal x < 0
    · simp [hx, not_le.mpr hx, ih, add_assoc]
    · simp [hx, not_lt.mp hx, ih, add_assoc]

/-- Membership of a key in the result of `insertAssoc`. -/
lemma mem_keys_insertAssoc {α : Type} (m : List (String × α)) (k : String) (v : α)
    (a : String) (ha : a ∈ (insertAssoc m k v).map Prod.fst) :
    a ∈ m.map Prod.fst ∨ a = k := by
  induction m with
  | nil => simpa [insertAssoc] using ha
  | cons kv t ih =>
    by_cases hk : kv.1 = k
    · simp [insertAssoc, hk] at ha
      rcases ha with h | h
      · right; exact h
      · left; simp [h]
    · simp [insertAssoc, hk] at ha
      rcases ha with h | h
      · left; simp [h]
      · rcases ih (by simpa using h) with h2 | h2
        · left; simp [h2]
        · right; exact h2

/-- Function `insertAssoc` preserves distinctness of keys. -/
lemma nodup_keys_insertAssoc {α : Type} (m : List (String × α)) (k : String) (v : α)
    (h : (m.map Prod.fst).Nodup) : ((insertAssoc m k v).map Prod.fst).Nodup := by
  induction m with
  | nil => simp [insertAssoc]
  | cons kv t ih =>
    rcases kv with ⟨k1, v1⟩
    simp only [List.map_cons, List.nodup_cons] at h
    obtain ⟨h1, h2⟩ := h
    by_cases hk : k1 = k
    · simp only [insertAssoc, if_pos hk, List.map_cons, List.nodup_cons]
      exact ⟨hk ▸ h1, h2⟩
    · simp only [insertAssoc, if_neg hk, List.map_cons, List.nodup_cons]
      refine ⟨?_, ih h2⟩
      intro hmem
      rcases mem_keys_insertAssoc t k v k1 hmem with hh | hh
      · exact h1 hh
      · exact hk hh

/-- The dict built by `buildMapa` has pairwise-distinct keys. -/
lemma nodup_keys_buildMapa (ps : List Partida) :
    ((buildMapa ps).map Prod.fst).Nodup := by
  suffices h : ∀ (acc : List (String × Partida)), (acc.map Prod.fst).Nodup →
      ((ps.foldl (fun m p => insertAssoc m p.codigo_partida p) acc).map Prod.fst).Nodup by
    exact h [] (by simp)
  induction ps with
  | nil => intro acc hacc; simpa using hacc
  | cons p t ih =>
    intro acc hacc
    exact ih _ (nodup_keys_insertAssoc acc p.codigo_partida p hacc)

/-- With distinct keys, lookup of a stored entry returns exactly its value. -/
lemma lookupAssoc_eq_of_mem_nodup {α : Type} (m : List (String × α))
    (hnd : (m.map Prod.fst).Nodup) (kv : String × α) (h : kv ∈ m) :
    lookupAssoc m kv.1 = some kv.2 := by
  induction m with
  | nil => simp at h
  | cons x t ih =>
    simp only [List.map_cons, List.nodup_cons] at hnd
    rcases List.mem_cons.mp h with h1 | h1
    · simp [lookupAssoc, h1]
    · by_cases hx : x.1 = kv.1
      · exact absurd (hx ▸ List.mem_map_of_mem Prod.fst h1) hnd.1
      · simpa [lookupAssoc, hx] using ih hnd.2 h1

/-- A line item never differs from itself beyond tolerance. -/
lemma partidaFueModificada_self (p : Partida) : partidaFueModificada p p = false := by
  simp [partidaFueModificada, umbral]

/-- Folding `acc + f x` accumulates the mapped sum. -/
lemma foldl_add_sum {α : Type} (f : α → ℚ) (l : List α) :
    ∀ a : ℚ, l.foldl (fun acc x => acc + f x) a = a + (l.map f).sum := by
  induction l with
  | nil => intro a; simp
  | cons x t ih => intro a; simp [ih, add_assoc]

/-- The classifier stores `-precio_total` on a reduction. -/
lemma impacto_mkReduccion (p : Partida) :
    (mkReduccion p).impacto_presupuestal = -p.precio_total := rfl

/-- The classifier stores `+precio_total` on an addition. -/
lemma impacto_mkAdicional (p : Partida) :
    (mkAdicional p).impacto_presupuestal = p.precio_total := rfl

/-- The classifier stores the price difference on a linked-deductive. -/
lemma impacto_mkDeductivo (x : ParModificada) :
    (mkDeductivo x).impacto_presupuestal =
      x.nueva.precio_total - x.original.precio_total := rfl

/-- Summing pointwise negations negates the sum. -/
lemma sum_map_neg {α : Type} (f : α → ℚ) (l : List α) :
    (l.map (fun x => -f x)).sum = -(l.map f).sum := by
  induction l with
  | nil => simp
  | cons x t ih => simp [ih]; ring

/-- Updating the value stored under a present key is seen by lookup. -/
lemma lookupAssoc_updateAssoc {α : Type} (l : List (String × α)) (k : String) (v c : α)
    (h : lookupAssoc l k = some c) : lookupAssoc (updateAssoc l k v) k = some v := by
  induction l with
  | nil => simp [lookupAssoc] at h
  | cons x t ih =>
    obtain ⟨k1, v1⟩ := x
    simp only [updateAssoc, List.map_cons] at ih ⊢
    by_cases hx : k1 = k
    · subst hx
      rw [if_pos rfl]
      simp [lookupAssoc]
    · rw [if_neg hx]
      simp only [lookupAssoc, if_neg hx] at h ⊢
      exact ih h

lemma part0101Base_cod : part0101Base.codigo_partida = ("01.01") := rfl
lemma part0102Base_cod : part0102Base.codigo_partida = ("01.02") := rfl
lemma part0101Cand_cod : part0101Cand.codigo_partida = ("01.01") := rfl
lemma part0103Cand_cod : part0103Cand.codigo_partida = ("01.03") := rfl
lemma part0101Base_pt : part0101Base.precio_total = 1000 := rfl
lemma part0102Base_pt : part0102Base.precio_total = 500 := rfl
lemma part0101Cand_pt : part0101Cand.precio_total = 1200 := rfl
lemma part0103Cand_pt : part0103Cand.precio_total = 300 := rfl
lemma part0101Base_desc : part0101Base.descripcion = ("Muro de contencion") := rfl
lemma part0102Base_desc : part0102Base.descripcion = ("Contrapiso") := rfl
lemma part0101Cand_desc : part0101Cand.descripcion = ("Muro de contencion") := rfl
lemma part0103Cand_desc : part0103Cand.descripcion = ("Cobertura ligera") := rfl

/-- Item 01.01 is flagged changed: its unit and extended prices moved by 200,
above the 0.01 tolerance. -/
lemma fueModificada_0101 : partidaFueModificada part0101Base part0101Cand = true := by
  norm_num [partidaFueModificada, umbral, part0101Base, part0101Cand]

/-- The changed fields of 01.01 are the two price columns. -/
lemma camposModificados_0101 :
    obtenerCamposModificados part0101Base part0101Cand =
      [("precio_unitario"), ("precio_total")] := by
  norm_num [obtenerCamposModificados, umbral, part0101Base, part0101Cand]

/-- The C3 session is found under its id. -/
lemma lookup_estadoC3 :
    lookupAssoc estadoC3.comparaciones_activas reqC3.comparacion_id = some compSesion := by
  simp [estadoC3, reqC3, lookupAssoc]

/-- Confirming only the 500 reduction leaves an unbalanced confirmed set. -/
lemma hub_estadoC3 :
    (validarEquilibrioPresupuestal
        (procesarConfirmaciones 7 reqC3.monitor_responsable reqC3.modificaciones_confirmadas
          compSesion.modificaciones_sugeridas).2).esta_equilibrado = false := by
  norm_num [reqC3, compSesion, procesarConfirmaciones, updateFirst, aplicarConfirmacion,
    modReduccion500, validarEquilibrioPresupuestal, calcularImpactoPresupuestal, umbral]

/-! ## Claim theorems -/

/-- C1: the budget-impact invariant breaks on the code.  For the
classifier-produced LinkedDeductive of the 1000→1200 change (no linkage set:
`partida_eliminada_codigo = none`, `partida_eliminada_monto = 0`), the STORED
impact field is `monto_nuevo − monto_anterior = 200`, agreeing with the
kind-specific formula's no-linkage branch and with the field's own source
comment, but the COMPUTED `calcular_impacto_presupuestal` returns
`monto_nuevo − partida_eliminada_monto = 1200 ≠ 200`: the computed impact
violates the formula, so stored and computed impact cannot both satisfy it. -/
theorem C1_impacto_formula_divergence :
    (mkDeductivo parModificada0101).partida_eliminada_codigo = none ∧
    (mkDeductivo parModificada0101).partida_eliminada_monto = 0 ∧
    (mkDeductivo parModificada0101).monto_anterior = 1000 ∧
    (mkDeductivo parModificada0101).monto_nuevo = 1200 ∧
    (mkDeductivo parModificada0101).impacto_presupuestal =
      (mkDeductivo parModificada0101).monto_nuevo -
        (mkDeductivo parModificada0101).monto_anterior ∧
    calcularImpactoPresupuestal (mkDeductivo parModificada0101) = 1200 ∧
    ¬ calcularImpactoPresupuestal (mkDeductivo parModificada0101) =
        (mkDeductivo parModificada0101).monto_nuevo -
          (mkDeductivo parModificada0101).monto_anterior := by
  norm_num [mkDeductivo, calcularImpactoPresupuestal, parModificada0101,
    part0101Base, part0101Cand]

/-- C2: on the concrete §8.6 scenario the pipeline detects removed =
{01.02: 500} classified as a REDUCCION with stored impact −500, added =
{01.03: 300} classified as an ADICIONAL with stored impact +300, changed =
{01.01: 1000→1200} classified as a DEDUCTIVO_VINCULANTE with stored impact
+200 and no linkage, the preliminary balance is 0, it is reported balanced,
and the only alert is the confirmation message. -/
theorem C2_concrete_scenario :
    (compararCronogramas [part0101Base, part0102Base] [part0101Cand, part0103Cand]).partidas_eliminadas
      = [part0102Base] ∧
    (compararCronogramas [part0101Base, part0102Base] [part0101Cand, part0103Cand]).partidas_nuevas
      = [part0103Cand] ∧
    (compararCronogramas [part0101Base, part0102Base] [part0101Cand, part0103Cand]).partidas_modificadas
      = [parModificada0101] ∧
    (compararCronogramas [part0101Base, part0102Base] [part0101Cand, part0103Cand]).modificaciones_sugeridas
      = [{ tipo := .reduccion_prestaciones, estado := .detectada,
           codigo_partida := ("01.02"), descripcion_anterior := some ("Contrapiso"),
           monto_anterior := 500, monto_nuevo := 0, impacto_presupuestal := -500 },
         { tipo := .adicional_independiente, estado := .detectada,
           codigo_partida := ("01.03"), descripcion_nueva := some ("Cobertura ligera"),
           monto_anterior := 0, monto_nuevo := 300, impacto_presupuestal := 300 },
         { tipo := .deductivo_vinculante, estado := .detectada,
           codigo_partida := ("01.01"),
           descripcion_anterior := some ("Muro de contencion"),
           descripcion_nueva := some ("Muro de contencion"),
           monto_anterior := 1000, monto_nuevo := 1200,
           impacto_presupuestal := 200, partida_eliminada_codigo := none,
           partida_eliminada_monto := 0 }] ∧
    (compararCronogramas [part0101Base, part0102Base] [part0101Cand, part0103Cand]).balance_preliminar
      = 0 ∧
    estaEquilibradaPreliminarmente
      (compararCronogramas [part0101Base, part0102Base] [part0101Cand, part0103Cand]) = true ∧
    getAlertasBalance
      (compararCronogramas [part0101Base, part0102Base] [part0101Cand, part0103Cand])
      = [Alerta.equilibrado] := by
  simp [compararCronogramas, buildMapa, insertAssoc, lookupAssoc,
    fueModificada_0101, camposModificados_0101, parModificada0101,
    part0101Base_cod, part0102Base_cod, part0101Cand_cod, part0103Cand_cod,
    part0101Base_pt, part0102Base_pt, part0101Cand_pt, part0103Cand_pt,
    part0101Base_desc, part0102Base_desc, part0101Cand_desc, part0103Cand_desc,
    generarModificacionesSugeridas, mkReduccion, mkAdicional, mkDeductivo,
    estaEquilibradaPreliminarmente, getAlertasBalance, umbral]
  norm_num

/-- C3 counterexample: confirming an unbalanced set does fail with the 400
carrying the alert list and persists no version, but the session's
modification is NOT left unchanged — before validation it was mutated in
place from DETECTADA to JUSTIFICADA with the justification, monitor and
timestamp recorded, refuting the claim's atomicity. -/
theorem C3_counterexample :
    (confirmarVersion estadoC3 reqC3 7).1 =
      Except.error (ApiError.unbalanced
        [Alerta.remanente 500, Alerta.agregarAdicionales]) ∧
    (confirmarVersion estadoC3 reqC3 7).2.versiones = [] ∧
    lookupAssoc (confirmarVersion estadoC3 reqC3 7).2.comparaciones_activas (("sesion-1")) =
      some { compSesion with modificaciones_sugeridas := [modReduccion500J] } ∧
    modReduccion500.estado = EstadoModificacion.detectada ∧
    modReduccion500J.estado = EstadoModificacion.justificada ∧
    modReduccion500J.justificacion_monitor = some ("vicios ocultos") ∧
    modReduccion500J.confirmada_por_monitor = some 7 ∧
    ¬ modReduccion500J = modReduccion500 := by
  simp [confirmarVersion, estadoC3, reqC3, compSesion, lookupAssoc, updateAssoc,
    procesarConfirmaciones, updateFirst, aplicarConfirmacion, modReduccion500,
    modReduccion500J, validarEquilibrioPresupuestal, calcularImpactoPresupuestal, umbral]
  norm_num [lookupAssoc]

/-- C3 (amended): for every session and confirmation request whose confirmed
set is unbalanced, `confirmar_version` fails with the 400 error carrying the
validator's alert list and persists no version, and the session stays
active — but holding the confirmed modifications ALREADY MUTATED in place
(Justified, justification and monitor recorded), because the mutation loop
runs before validation. -/
theorem C3_unbalanced_confirm_mutates
    (st : ApiState) (req : ConfirmarVersionRequest) (c : ComparacionCronogramas) (now : ℕ)
    (hs : lookupAssoc st.comparaciones_activas req.comparacion_id = some c)
    (hub : (validarEquilibrioPresupuestal
        (procesarConfirmaciones now req.monitor_responsable req.modificaciones_confirmadas
          c.modificaciones_sugeridas).2).esta_equilibrado = false) :
    (confirmarVersion st req now).1 =
      Except.error (ApiError.unbalanced
        (validarEquilibrioPresupuestal
          (procesarConfirmaciones now req.monitor_responsable req.modificaciones_confirmadas
            c.modificaciones_sugeridas).2).alertas) ∧
    (confirmarVersion st req now).2.versiones = st.versiones ∧
    (confirmarVersion st req now).2.comparaciones_activas =
      updateAssoc st.comparaciones_activas req.comparacion_id
        { c with modificaciones_sugeridas :=
            (procesarConfirmaciones now req.monitor_responsable
              req.modificaciones_confirmadas c.modificaciones_sugeridas).1 } := by
  simp [confirmarVersion, hs, hub]

/-- C3 witness: the amended statement at the concrete unbalanced session. -/
theorem C3_unbalanced_confirm_mutates_witness :
    (confirmarVersion estadoC3 reqC3 7).1 =
      Except.error (ApiError.unbalanced
        (validarEquilibrioPresupuestal
          (procesarConfirmaciones 7 reqC3.monitor_responsable reqC3.modificaciones_confirmadas
            compSesion.modificaciones_sugeridas).2).alertas) ∧
    (confirmarVersion estadoC3 reqC3 7).2.versiones = estadoC3.versiones ∧
    (confirmarVersion estadoC3 reqC3 7).2.comparaciones_activas =
      updateAssoc estadoC3.comparaciones_activas reqC3.comparacion_id
        { compSesion with modificaciones_sugeridas :=
            (procesarConfirmaciones 7 reqC3.monitor_responsable
              reqC3.modificaciones_confirmadas compSesion.modificaciones_sugeridas).1 } :=
  C3_unbalanced_confirm_mutates estadoC3 reqC3 compSesion 7 lookup_estadoC3 hub_estadoC3

/-- C4: the balance validator returns `total_reducciones` = Σ|impact| over
the negative impacts, `total_adicionales` = Σ impact over the non-negative
impacts, `balance = total_adicionales − total_reducciones`, and
`esta_equilibrado ⇔ |balance| < 0.01`, for every modification list; the
empty list yields balance 0 and is balanced. -/
theorem C4_balance_additivity (mods : List ModificacionPartida) :
    (validarEquilibrioPresupuestal mods).total_reducciones =
      ((mods.filter (fun m => decide (calcularImpactoPresupuestal m < 0))).map
        (fun m => |calcularImpactoPresupuestal m|)).sum ∧
    (validarEquilibrioPresupuestal mods).total_adicionales =
      ((mods.filter (fun m => decide (0 ≤ calcularImpactoPresupuestal m))).map
        (fun m => calcularImpactoPresupuestal m)).sum ∧
    (validarEquilibrioPresupuestal mods).balance =
      (validarEquilibrioPresupuestal mods).total_adicionales -
        (validarEquilibrioPresupuestal mods).total_reducciones ∧
    ((validarEquilibrioPresupuestal mods).esta_equilibrado = true ↔
      |(validarEquilibrioPresupuestal mods).balance| < 1 / 100) ∧
    (validarEquilibrioPresupuestal []).balance = 0 ∧
    (validarEquilibrioPresupuestal []).esta_equilibrado = true := by
  refine ⟨?_, ?_, ?_, ?_, ?_, ?_⟩
  · simp [validarEquilibrioPresupuestal, foldl_totales mods]
  · simp [validarEquilibrioPresupuestal, foldl_totales mods]
  · simp [validarEquilibrioPresupuestal, foldl_totales mods]
  · simp [validarEquilibrioPresupuestal, foldl_totales mods, umbral]
  · norm_num [validarEquilibrioPresupuestal]
  · norm_num [validarEquilibrioPresupuestal, umbral]

/-- C5: `puede_ser_aprobada` is false whenever some modification is in a
state outside {JUSTIFICADA, APROBADA} (regardless of the balance flag), and
it is true only when the version's `esta_equilibrada` flag holds and every
modification is JUSTIFICADA or APROBADA. -/
theorem C5_approval_gating (v : CronogramaVersion) :
    ((∃ m ∈ v.modificaciones,
        m.estado ≠ EstadoModificacion.justificada ∧
        m.estado ≠ EstadoModificacion.aprobada) →
      puedeSerAprobada v = false) ∧
    (puedeSerAprobada v = true →
      v.esta_equilibrada = true ∧
      ∀ m ∈ v.modificaciones,
        m.estado = EstadoModificacion.justificada ∨
        m.estado = EstadoModificacion.aprobada) := by
  constructor
  · rintro ⟨m, hm, h1, h2⟩
    simp only [puedeSerAprobada, Bool.and_eq_false_iff]
    right
    simp only [List.all_eq_false]
    exact ⟨m, hm, by simp [h1, h2]⟩
  · intro h
    simp only [puedeSerAprobada, Bool.and_eq_true, List.all_eq_true] at h
    refine ⟨h.1, fun m hm => ?_⟩
    have := h.2 m hm
    simpa using this

/-- C5 witness: a balanced version with one DETECTADA modification is not
approvable. -/
theorem C5_approval_gating_witness : puedeSerAprobada versionConDetectada = false :=
  (C5_approval_gating versionConDetectada).1
    ⟨modDetectada500, by simp [versionConDetectada], by simp [modDetectada500],
     by simp [modDetectada500]⟩

/-- C6 counterexample: a confirm call on a modification already in the
terminal RECHAZADA state does NOT fail with a state error and does NOT leave
it unchanged: the code has no state check, so the rejected modification is
re-set to JUSTIFICADA with justification and audit fields overwritten (here
the call then fails only on balance). -/
theorem C6_counterexample :
    modRechazada.estado = EstadoModificacion.rechazada ∧
    (confirmarVersion estadoC6 reqC6 9).1 =
      Except.error (ApiError.unbalanced
        [Alerta.remanente 250, Alerta.agregarAdicionales]) ∧
    lookupAssoc (confirmarVersion estadoC6 reqC6 9).2.comparaciones_activas (("sesion-2")) =
      some { compSesionRech with modificaciones_sugeridas := [modRechazadaJ] } ∧
    modRechazadaJ.estado = EstadoModificacion.justificada ∧
    modRechazadaJ.justificacion_monitor = some ("reintento") ∧
    modRechazadaJ.monitor_responsable = some ("Monitor Vega") ∧
    ¬ modRechazadaJ = modRechazada := by
  simp [confirmarVersion, estadoC6, reqC6, compSesionRech, lookupAssoc, updateAssoc,
    procesarConfirmaciones, updateFirst, aplicarConfirmacion, modRechazada,
    modRechazadaJ, validarEquilibrioPresupuestal, calcularImpactoPresupuestal, umbral]
  norm_num [lookupAssoc]

/-- C6 (amended): `confirmar_version` performs no state check: for a session
whose suggested modification is in a terminal state (RECHAZADA or APROBADA),
a confirm request matching it unconditionally re-sets it to JUSTIFICADA,
overwriting justification, monitor and confirmation timestamp, and the
mutated modification stays in the session (no version is persisted since the
success path cannot complete). -/
theorem C6_terminal_state_unguarded
    (st : ApiState) (req : ConfirmarVersionRequest) (c : ComparacionCronogramas)
    (m : ModificacionPartida) (j : String) (now : ℕ)
    (hs : lookupAssoc st.comparaciones_activas req.comparacion_id = some c)
    (hc : c.comisaria_id = none)
    (hm : c.modificaciones_sugeridas = [m])
    (hreq : req.modificaciones_confirmadas = [⟨m.codigo_partida, m.tipo, j, true⟩])
    (hterm : m.estado = EstadoModificacion.rechazada ∨
             m.estado = EstadoModificacion.aprobada) :
    lookupAssoc (confirmarVersion st req now).2.comparaciones_activas req.comparacion_id =
      some { c with modificaciones_sugeridas :=
        [aplicarConfirmacion now req.monitor_responsable j m] } ∧
    (aplicarConfirmacion now req.monitor_responsable j m).estado =
      EstadoModificacion.justificada ∧
    (aplicarConfirmacion now req.monitor_responsable j m).justificacion_monitor = some j ∧
    (aplicarConfirmacion now req.monitor_responsable j m).confirmada_por_monitor = some now ∧
    (confirmarVersion st req now).2.versiones = st.versiones := by
  have hproc : procesarConfirmaciones now req.monitor_responsable
      req.modificaciones_confirmadas c.modificaciones_sugeridas =
      ([aplicarConfirmacion now req.monitor_responsable j m],
       [aplicarConfirmacion now req.monitor_responsable j m]) := by
    simp [procesarConfirmaciones, hreq, hm, updateFirst]
  refine ⟨?_, rfl, rfl, rfl, ?_⟩
  · simp only [confirmarVersion, hs, hproc, hc]
    split
    · exact lookupAssoc_updateAssoc _ _ _ _ hs
    · exact lookupAssoc_updateAssoc _ _ _ _ hs
  · simp only [confirmarVersion, hs, hproc, hc]
    split
    · rfl
    · rfl

/-- C6 witness: the amended statement at a session holding an APROBADA
modification. -/
theorem C6_terminal_state_unguarded_witness :
    lookupAssoc (confirmarVersion estadoC6w reqC6w 11).2.comparaciones_activas
        reqC6w.comparacion_id =
      some { compSesionApr with modificaciones_sugeridas :=
        [aplicarConfirmacion 11 reqC6w.monitor_responsable ("reconfirmada") modAprobadaCero] } ∧
    (aplicarConfirmacion 11 reqC6w.monitor_responsable ("reconfirmada") modAprobadaCero).estado =
      EstadoModificacion.justificada ∧
    (aplicarConfirmacion 11 reqC6w.monitor_responsable ("reconfirmada") modAprobadaCero).justificacion_monitor =
      some ("reconfirmada") ∧
    (aplicarConfirmacion 11 reqC6w.monitor_responsable ("reconfirmada") modAprobadaCero).confirmada_por_monitor =
      some 11 ∧
    (confirmarVersion estadoC6w reqC6w 11).2.versiones = estadoC6w.versiones :=
  C6_terminal_state_unguarded estadoC6w reqC6w compSesionApr modAprobadaCero
    ("reconfirmada") 11
    (by simp [estadoC6w, reqC6w, lookupAssoc]) rfl rfl rfl (Or.inr rfl)

/-- C7: the classifier emits exactly one modification per change-set entry,
in the order reductions, additions, linked-deductives; each removed item
yields a REDUCCION with `monto_anterior` = its extended price and
`monto_nuevo` = 0; each added item an ADICIONAL with `monto_anterior` = 0 and
`monto_nuevo` = its extended price; each changed pair a DEDUCTIVO carrying
both amounts; all created DETECTADA; output counts equal input counts. -/
theorem C7_classifier_one_to_one (e n : List Partida) (m : List ParModificada) :
    generarModificacionesSugeridas e n m =
      e.map mkReduccion ++ n.map mkAdicional ++ m.map mkDeductivo ∧
    (generarModificacionesSugeridas e n m).length =
      e.length + n.length + m.length ∧
    (∀ p : Partida,
      (mkReduccion p).tipo = TipoModificacion.reduccion_prestaciones ∧
      (mkReduccion p).estado = EstadoModificacion.detectada ∧
      (mkReduccion p).monto_anterior = p.precio_total ∧
      (mkReduccion p).monto_nuevo = 0) ∧
    (∀ p : Partida,
      (mkAdicional p).tipo = TipoModificacion.adicional_independiente ∧
      (mkAdicional p).estado = EstadoModificacion.detectada ∧
      (mkAdicional p).monto_anterior = 0 ∧
      (mkAdicional p).monto_nuevo = p.precio_total) ∧
    (∀ x : ParModificada,
      (mkDeductivo x).tipo = TipoModificacion.deductivo_vinculante ∧
      (mkDeductivo x).estado = EstadoModificacion.detectada ∧
      (mkDeductivo x).monto_anterior = x.original.precio_total ∧
      (mkDeductivo x).monto_nuevo = x.nueva.precio_total) := by
  refine ⟨generar_eq_maps e n m, ?_, ?_, ?_, ?_⟩
  · simp [generar_eq_maps, Nat.add_assoc]
  · intro p; exact ⟨rfl, rfl, rfl, rfl⟩
  · intro p; exact ⟨rfl, rfl, rfl, rfl⟩
  · intro x; exact ⟨rfl, rfl, rfl, rfl⟩

/-- C8: comparing a record set against itself detects no removed, added or
changed line items, for every input list (duplicate codes included, since
both sides build the identical keyed map). -/
theorem C8_compare_idempotent (A : List Partida) :
    (compararCronogramas A A).partidas_eliminadas = [] ∧
    (compararCronogramas A A).partidas_nuevas = [] ∧
    (compararCronogramas A A).partidas_modificadas = [] := by
  have hnd := nodup_keys_buildMapa A
  have hlook : ∀ kv : String × Partida, kv ∈ buildMapa A →
      lookupAssoc (buildMapa A) kv.1 = some kv.2 :=
    fun kv hkv => lookupAssoc_eq_of_mem_nodup _ hnd kv hkv
  refine ⟨?_, ?_, ?_⟩
  · simp only [compararCronogramas, List.map_eq_nil_iff, List.filter_eq_nil_iff]
    intro kv hkv
    simp [hlook kv hkv]
  · simp only [compararCronogramas, List.map_eq_nil_iff, List.filter_eq_nil_iff]
    intro kv hkv
    simp [hlook kv hkv]
  · simp only [compararCronogramas, List.filterMap_eq_nil_iff]
    intro kv hkv
    simp [hlook kv hkv, partidaFueModificada_self]

/-- C9: for every pair of input record sets, the comparison's preliminary
balance equals the sum of the stored `impacto_presupuestal` fields over the
suggested modifications it generates. -/
theorem C9_balance_eq_sum_impactos (o n : List Partida) :
    (compararCronogramas o n).balance_preliminar =
      (((compararCronogramas o n).modificaciones_sugeridas).map
        (fun m => m.impacto_presupuestal)).sum := by
  simp only [compararCronogramas, generar_eq_maps]
  simp only [foldl_add_sum, List.map_append, List.map_map, List.sum_append,
    Function.comp_def, impacto_mkReduccion, impacto_mkAdicional, impacto_mkDeductivo]
  rw [sum_map_neg (fun kv : String × Partida => kv.2.precio_total)]
  ring

/-- C10 counterexample: a statistics record with non-negative counts and
`partidas_criticas ≤ total_partidas` on which the risk score is UNDEFINED:
`total_partidas = 0` makes the critical-item factor divide by zero. -/
theorem C10_counterexample :
    datosSinPartidas.partidas_criticas ≤ datosSinPartidas.total_partidas ∧
    calcularScoreRiesgo datosSinPartidas = none := by
  simp [calcularScoreRiesgo, datosSinPartidas]

/-- C10 (amended): for every statistics record with non-negative counts,
`partidas_criticas ≤ total_partidas`, at least one line item
(`total_partidas ≥ 1`, ruling out the division failure) and a non-negative
days-since-last-report (a future-dated report would push the staleness factor
negative), the risk score is defined and lies in [0, 10]. -/
theorem C10_score_riesgo_bounds (d : DatosComisaria)
    (hp : d.partidas_criticas ≤ d.total_partidas)
    (ht : 1 ≤ d.total_partidas)
    (hd : ∀ dias : ℤ, d.ultimo_reporte = UltimoReporte.hace dias → 0 ≤ dias) :
    ∃ s : ℚ, calcularScoreRiesgo d = some s ∧ 0 ≤ s ∧ s ≤ 10 := by
  have h0 : ¬ d.total_partidas = 0 := by omega
  simp only [calcularScoreRiesgo, h0, if_false]
  refine ⟨_, rfl, ?_, min_le_right _ _⟩
  have h1 : (0 : ℚ) ≤ min (|d.diferencia_promedio| * (8 / 10)) 10 * (4 / 10) := by
    apply mul_nonneg _ (by norm_num)
    exact le_min (by positivity) (by norm_num)
  have h2 : (0 : ℚ) ≤
      min ((d.partidas_criticas : ℚ) / (d.total_partidas : ℚ) * 100 * (5 / 10)) 10 * (3 / 10) := by
    apply mul_nonneg _ (by norm_num)
    exact le_min (by positivity) (by norm_num)
  have h3 : (0 : ℚ) ≤
      (match d.ultimo_reporte with
       | UltimoReporte.ninguno => (0 : ℚ)
       | UltimoReporte.fechaInvalida => 5 * (2 / 10)
       | UltimoReporte.hace dias => min ((dias : ℚ) * (5 / 10)) 10 * (2 / 10)) := by
    rcases hr : d.ultimo_reporte with _ | _ | dias
    · simp
    · norm_num
    · have hdias := hd dias hr
      simp only []
      apply mul_nonneg _ (by norm_num)
      apply le_min _ (by norm_num)
      have hq : (0 : ℚ) ≤ (dias : ℚ) := by exact_mod_cast hdias
      positivity
  refine le_min ?_ (by norm_num)
  have h4 : (0 : ℚ) ≤ 0 * (1 / 10) := by norm_num
  linarith

/-- C10 witness: the amended statement at a typical record with 4 line items,
one critical, and no report on file. -/
theorem C10_score_riesgo_bounds_witness :
    ∃ s : ℚ, calcularScoreRiesgo datosEstacionTipica = some s ∧ 0 ≤ s ∧ s ≤ 10 :=
  C10_score_riesgo_bounds datosEstacionTipica
    (by simp [datosEstacionTipica]) (by simp [datosEstacionTipica])
    (by simp [datosEstacionTipica])

end Nemaec
